import Mathlib

/-!
Verification development for the boom-guru image-analysis service.

The embedding models `src/services/image_processing.py` (the `process_image`
pipeline), `src/services/openai_client.py` (`call_openai_api`, `send_callback`),
`src/db.py` (`save_machine_analysis`) and the constants of `src/config.py`.
External effects (HTTP image fetch, the Azure OpenAI chat completion, the
database insert, the webhook POST) are supplied as oracle inputs; everything
else — JSON handling, category branching, enrichment, aggregation, payload
construction, and the Python calling-convention facts that decide control
flow — is translated directly from the source.

Python values decoded from JSON are modelled by `JVal`; `json.loads` by a
fueled JSON reader `json_loads`; `str.replace`, `str.strip`, `str.lower`,
`str.split` and `int(...)` by the `py_*` functions below (ASCII whitespace and
plain decimal digits, which covers every value the service manipulates).
-/

namespace BoomGuru

/-- Python values produced by `json.loads`: `None`, `bool`, `int`, `float`
(modelled as a rational), `str`, `list`, `dict` (assoc list in insertion
order, no duplicate keys — the reader collapses duplicates last-wins as
Python's dict does). -/
inductive JVal where
  | null
  | bool (b : Bool)
  | int (n : Int)
  | float (q : Rat)
  | str (s : String)
  | arr (xs : List JVal)
  | obj (fs : List (String × JVal))
deriving Repr, Inhabited

/-- Python `v == "<lit>"`: true only when `v` is a string equal to it. -/
def jEqStr (v : JVal) (s : String) : Bool :=
  match v with
  | .str t => t == s
  | _ => false

/-- Python type name of a `JVal`, used to render exception texts. -/
def py_type_name : JVal → String
  | .null => "NoneType"
  | .bool _ => "bool"
  | .int _ => "int"
  | .float _ => "float"
  | .str _ => "str"
  | .arr _ => "list"
  | .obj _ => "dict"

/-! ### Python string helpers -/

/-- Is `pat` a prefix of `cs`? -/
def starts_with : List Char → List Char → Bool
  | _, [] => true
  | [], _ :: _ => false
  | c :: cs, p :: ps => c == p && starts_with cs ps

/-- Worker for `py_replace`; fuel bounds the number of characters examined. -/
def py_replace_aux (fuel : Nat) (cs pat rep : List Char) : List Char :=
  match fuel with
  | 0 => cs
  | Nat.succ f =>
    match cs with
    | [] => []
    | c :: rest =>
      if starts_with (c :: rest) pat then
        rep ++ py_replace_aux f (List.drop pat.length (c :: rest)) pat rep
      else
        c :: py_replace_aux f rest pat rep

/-- Python `s.replace(pat, rep)` (all non-overlapping occurrences, left to
right). The service only replaces non-empty patterns. -/
def py_replace (s pat rep : String) : String :=
  if pat.isEmpty then s
  else String.mk (py_replace_aux s.length s.toList pat.toList rep.toList)

def is_py_space (c : Char) : Bool :=
  c == ' ' || c == '\t' || c == '\n' || c == '\r' || c == '\x0b' || c == '\x0c'

def drop_ws_l : List Char → List Char
  | [] => []
  | c :: cs => if is_py_space c then drop_ws_l cs else c :: cs

/-- Python `s.strip()` (ASCII whitespace). -/
def py_strip (s : String) : String :=
  String.mk ((drop_ws_l (drop_ws_l s.toList).reverse).reverse)

/-- Python `s.lower()` (ASCII case fold, which covers the values compared by
the service). -/
def py_lower (s : String) : String :=
  String.mk (s.toList.map Char.toLower)

/-- Split a character list at every occurrence of `sep`. -/
def split_char_go (sep : Char) : List Char → List Char → List (List Char)
  | [], acc => [acc.reverse]
  | c :: cs, acc =>
    if c == sep then acc.reverse :: split_char_go sep cs []
    else split_char_go sep cs (c :: acc)

/-- Python `s.split("-")` for the single-character separator used by the
error-code enrichment. -/
def py_split_dash (s : String) : List String :=
  (split_char_go '-' s.toList []).map String.mk

def digitsToNat (ds : List Char) : Nat :=
  ds.foldl (fun a c => a * 10 + (c.toNat - 48)) 0

/-- Digit run acceptable to Python `int(...)`: non-empty decimal digits with
single underscores allowed strictly between digits. -/
def py_digit_run (cs : List Char) : Bool :=
  if cs.isEmpty then false
  else (split_char_go '_' cs []).all (fun g => !g.isEmpty && g.all Char.isDigit)

/-- Python `int(s)` on a string: strip whitespace, optional sign, decimal
digits (underscore separators allowed); `none` models `ValueError`. -/
def py_int_of_string? (s : String) : Option Int :=
  let t := (py_strip s).toList
  match t with
  | '+' :: cs => if py_digit_run cs then some (digitsToNat (cs.filter (fun c => c != '_'))) else none
  | '-' :: cs => if py_digit_run cs then some (-(digitsToNat (cs.filter (fun c => c != '_')) : Int)) else none
  | cs => if py_digit_run cs then some (digitsToNat (cs.filter (fun c => c != '_'))) else none

/-! ### `json.loads` -/

/-- Lookup in a decoded dict (keys are unique, see the reader). -/
def dictGet (fs : List (String × JVal)) (k : String) : Option JVal :=
  (fs.find? (fun p => p.1 == k)).map (fun p => p.2)

/-- Python `d.get(k, dflt)`. -/
def dictGetD (fs : List (String × JVal)) (k : String) (dflt : JVal) : JVal :=
  (dictGet fs k).getD dflt

/-- Python `d[k] = v`: overwrite in place if the key exists (insertion order
kept), else append. -/
def dictSet (fs : List (String × JVal)) (k : String) (v : JVal) : List (String × JVal) :=
  if fs.any (fun p => p.1 == k) then
    fs.map (fun p => if p.1 == k then (k, v) else p)
  else
    fs ++ [(k, v)]

def hexDigit? (c : Char) : Option Nat :=
  if c.isDigit then some (c.toNat - 48)
  else if 'a' ≤ c && c ≤ 'f' then some (c.toNat - 87)
  else if 'A' ≤ c && c ≤ 'F' then some (c.toNat - 55)
  else none

def json_skip_ws : List Char → List Char
  | [] => []
  | c :: cs =>
    if c == ' ' || c == '\t' || c == '\n' || c == '\r' then json_skip_ws cs
    else c :: cs

/-- Read the body of a JSON string after the opening quote. -/
def json_string_body (fuel : Nat) (cs : List Char) (acc : List Char) :
    Option (String × List Char) :=
  match fuel with
  | 0 => none
  | Nat.succ f =>
    match cs with
    | [] => none
    | c :: rest =>
      if c == '"' then some (String.mk acc.reverse, rest)
      else if c == '\\' then
        match rest with
        | [] => none
        | e :: rest2 =>
          if e == '"' then json_string_body f rest2 ('"' :: acc)
          else if e == '\\' then json_string_body f rest2 ('\\' :: acc)
          else if e == '/' then json_string_body f rest2 ('/' :: acc)
          else if e == 'n' then json_string_body f rest2 ('\n' :: acc)
          else if e == 't' then json_string_body f rest2 ('\t' :: acc)
          else if e == 'r' then json_string_body f rest2 ('\r' :: acc)
          else if e == 'b' then json_string_body f rest2 (Char.ofNat 8 :: acc)
          else if e == 'f' then json_string_body f rest2 (Char.ofNat 12 :: acc)
          else if e == 'u' then
            match rest2 with
            | h1 :: h2 :: h3 :: h4 :: rest3 =>
              match hexDigit? h1, hexDigit? h2, hexDigit? h3, hexDigit? h4 with
              | some a, some b, some c2, some d =>
                json_string_body f rest3 (Char.ofNat (((a * 16 + b) * 16 + c2) * 16 + d) :: acc)
              | _, _, _, _ => none
            | _ => none
          else none
      else json_string_body f rest (c :: acc)

def take_digits : List Char → List Char × List Char
  | [] => ([], [])
  | c :: cs =>
    if c.isDigit then
      let p := take_digits cs
      (c :: p.1, p.2)
    else ([], c :: cs)

/-- Read a JSON number (integer, fraction, exponent). Integer literals decode
to `JVal.int`, the rest to `JVal.float`. -/
def json_number (cs : List Char) : Option (JVal × List Char) :=
  let (neg, cs1) :=
    match cs with
    | '-' :: rest => (true, rest)
    | _ => (false, cs)
  match take_digits cs1 with
  | ([], _) => none
  | (ds, cs2) =>
    let intPart : Int := digitsToNat ds
    let (fracDs, cs3) :=
      match cs2 with
      | '.' :: rest =>
        match take_digits rest with
        | ([], _) => ([], cs2)
        | (fs, r) => (fs, r)
      | _ => ([], cs2)
    let hasFrac := !fracDs.isEmpty
    let (hasExp, expVal, cs4) :=
      match cs3 with
      | 'e' :: rest | 'E' :: rest =>
        let (esign, rest2) :=
          match rest with
          | '-' :: r => ((-1 : Int), r)
          | '+' :: r => ((1 : Int), r)
          | r => ((1 : Int), r)
        match take_digits rest2 with
        | ([], _) => (false, (0 : Int), cs3)
        | (es, r) => (true, esign * digitsToNat es, r)
      | _ => (false, (0 : Int), cs3)
    let sign : Int := if neg then -1 else 1
    if hasFrac || hasExp then
      let mant : Int := intPart * (10 : Int) ^ fracDs.length + digitsToNat fracDs
      let q : Rat := (sign * mant : Int) * (10 : Rat) ^ (expVal - fracDs.length)
      some (.float q, cs4)
    else
      some (.int (sign * intPart), cs4)

mutual

/-- Read one JSON value. -/
def json_value (fuel : Nat) (cs : List Char) : Option (JVal × List Char) :=
  match fuel with
  | 0 => none
  | Nat.succ f =>
    match json_skip_ws cs with
    | [] => none
    | c :: rest =>
      if c == '"' then
        (json_string_body f rest []).map (fun p => (.str p.1, p.2))
      else if c == 'n' then
        match rest with
        | 'u' :: 'l' :: 'l' :: r => some (.null, r)
        | _ => none
      else if c == 't' then
        match rest with
        | 'r' :: 'u' :: 'e' :: r => some (.bool true, r)
        | _ => none
      else if c == 'f' then
        match rest with
        | 'a' :: 'l' :: 's' :: 'e' :: r => some (.bool false, r)
        | _ => none
      else if c == Char.ofNat 91 then  -- [
        json_array_items f rest []
      else if c == Char.ofNat 123 then  -- left brace
        json_object_members f rest []
      else if c == '-' || c.isDigit then
        json_number (c :: rest)
      else none

/-- Read array items after `[`, accumulating in reverse. -/
def json_array_items (fuel : Nat) (cs : List Char) (acc : List JVal) :
    Option (JVal × List Char) :=
  match fuel with
  | 0 => none
  | Nat.succ f =>
    match json_skip_ws cs with
    | [] => none
    | c :: rest =>
      if c == Char.ofNat 93 && acc.isEmpty then  -- ] of empty array
        some (.arr [], rest)
      else
        match json_value f (c :: rest) with
        | none => none
        | some (v, r1) =>
          match json_skip_ws r1 with
          | [] => none
          | c2 :: r2 =>
            if c2 == ',' then json_array_items f r2 (v :: acc)
            else if c2 == Char.ofNat 93 then some (.arr (v :: acc).reverse, r2)
            else none

/-- Read object members after the opening brace, accumulating with
last-wins key collapse (Python dict behaviour). -/
def json_object_members (fuel : Nat) (cs : List Char) (acc : List (String × JVal)) :
    Option (JVal × List Char) :=
  match fuel with
  | 0 => none
  | Nat.succ f =>
    match json_skip_ws cs with
    | [] => none
    | c :: rest =>
      if c == Char.ofNat 125 && acc.isEmpty then  -- close of empty object
        some (.obj [], rest)
      else if c == '"' then
        match json_string_body f rest [] with
        | none => none
        | some (k, r1) =>
          match json_skip_ws r1 with
          | ':' :: r2 =>
            match json_value f r2 with
            | none => none
            | some (v, r3) =>
              match json_skip_ws r3 with
              | [] => none
              | c2 :: r4 =>
                if c2 == ',' then json_object_members f r4 (dictSet acc k v)
                else if c2 == Char.ofNat 125 then some (.obj (dictSet acc k v), r4)
                else none
          | _ => none
      else none

end

/-- Python `json.loads`: the whole input must be one JSON value surrounded
only by whitespace; any other input raises `json.JSONDecodeError`, modelled
as `.error ()`. -/
def json_loads (s : String) : Except Unit JVal :=
  let cs := s.toList
  match json_value (4 * cs.length + 16) cs with
  | some (v, rest) => if (json_skip_ws rest).isEmpty then .ok v else .error ()
  | none => .error ()

def exIsErr {ε α : Type} : Except ε α → Bool
  | .error _ => true
  | .ok _ => false

/-! ### Configuration (`src/config.py`) -/

/-- `PART_CLASSIFIER_ATTEMPTS` (config.py line 59). -/
def PART_CLASSIFIER_ATTEMPTS : Nat := 3

/-- `VALID_PART_CATEGORIES` (config.py lines 60-70); a Python set used only
for membership tests. -/
def VALID_PART_CATEGORIES : List String :=
  ["ATASMANLAR-DIGER",
   "ATASMANLAR-KIRICI",
   "ATASMANLAR-KOVA",
   "HIDROLIK PARÇALARI - HORTUM / RAKOR",
   "HIDROLIK PARÇALARI - SILINDIR",
   "ELEKTIRIK VE DIĞER PARÇALAR",
   "SASE PARCALARI",
   "YÜRÜYÜŞ TAKIMI",
   "LASTIK"]

/-- The three reference spreadsheets of config.py lines 44-46, abstracted to
lookup tables: `(key, Description)` rows in sheet order. -/
structure Tables where
  cid : List (Int × String)
  fmi : List (Int × String)
  eid : List (Int × String)

/-- First `Description` whose key column equals `k`
(`df.loc[df.KEY == k, "Description"].iloc[0]`); `none` models the
`IndexError` of `.iloc[0]` on an empty selection. -/
def lookup_desc (t : List (Int × String)) (k : Int) : Option String :=
  (t.find? (fun p => p.1 == k)).map (fun p => p.2)

/-! ### The request, the gateway and the callback (`src/models.py`,
`src/services/openai_client.py`) -/

/-- `ImageRequest` (models.py). -/
structure ImageRequest where
  image_url : String
  image_id : String
  serial_number : String
  form_id : Option String
  question_id : Option String
  webhook_url : String
  language : String

/-- The distinct prompts `process_image` sends through `call_openai_api`,
used to tag gateway invocations and to address the chat oracle. -/
inductive Stage where
  | dispatcher
  | authenticity
  | errorCodes
  | humanize
  | general
  | partClassifier
deriving Repr, DecidableEq

/-- Oracle inputs standing for the external effects of one run. -/
structure Oracles where
  /-- HTTP status of `requests.get(request.image_url, ...)`. -/
  fetch_status : Nat
  /-- Outcome of the Azure chat completion for each prompt kind: `.ok text`
  is `response.choices[0].message.content`, `.error msg` a raised provider
  exception rendered as a string. -/
  chat : Stage → Except String String
  /-- Whether the database insert of `save_machine_analysis` would succeed. -/
  db_ok : Bool
  /-- HTTP status the webhook returns to `send_callback`. -/
  webhook_status : Nat

/-- Parameter names of `call_openai_api` as defined in
openai_client.py lines 13: `(messages, session_id)` — there is NO
`temperature` parameter. -/
def call_openai_api_params : List String := ["messages", "session_id"]

/-- Keyword arguments used at the part-classifier call site
(image_processing.py lines 287-291). -/
def part_call_keywords : List String := ["temperature"]

/-- Python raises `TypeError` when a call passes a keyword argument the
callee does not accept; this is the case for the part-classifier call. -/
def part_call_raises : Bool :=
  part_call_keywords.any (fun k => !(call_openai_api_params.contains k))

/-- `call_openai_api` (openai_client.py lines 13-30): returns the model text
or re-raises any provider failure as
`Exception("OpenAI API call failed: ...")`. -/
def call_openai_api (chat : Stage → Except String String) (st : Stage) :
    Except String String :=
  match chat st with
  | .ok t => .ok t
  | .error m => .error ("OpenAI API call failed: " ++ m)

/-- The callback payload (image_processing.py lines 386-395 / 401-410). -/
structure CallbackPayload where
  session_id : String
  image_id : String
  serial_number : String
  form_id : Option String
  question_id : Option String
  answer : String
  status : String
  part_categories : List String
deriving Repr, DecidableEq

/-- One webhook delivery attempt with its logged outcome. -/
structure CallbackAttempt where
  url : String
  payload : CallbackPayload
  delivered : Bool
deriving Repr, DecidableEq

/-- `send_callback` (openai_client.py lines 33-61): POSTs the payload; both
the non-200 branch and any transport exception are swallowed and logged, so
the function is total and always yields exactly one attempt record. -/
def send_callback (url : String) (p : CallbackPayload) (webhook_status : Nat) :
    CallbackAttempt :=
  ⟨url, p, webhook_status == 200⟩

/-! ### Persistence (`src/db.py`) -/

/-- The row `save_machine_analysis` inserts (db.py lines 54-77). -/
structure SavedRecord where
  session_id : String
  serial_number : String
  image_id : String
  form_id : Option String
  question_id : Option String
  category : JVal
  part_category : String
  final_answer : String

/-- Parameter names of `save_machine_analysis` as defined in db.py
lines 41-50. -/
def save_machine_analysis_params : List String :=
  ["session_id", "serial_number", "image_id", "form_id", "question_id",
   "category", "part_category", "final_answer"]

/-- Keyword arguments passed at the call site in image_processing.py
lines 373-384 — note `webhook_url` and `image_url`, which the callee does
not accept. -/
def save_call_keywords : List String :=
  ["session_id", "serial_number", "image_id", "form_id", "question_id",
   "webhook_url", "image_url", "category", "part_category", "final_answer"]

/-- The first keyword argument of the call that the signature rejects;
`some k` means Python raises `TypeError` naming `k` before the function body
runs. -/
def save_call_unexpected : Option String :=
  save_call_keywords.find? (fun k => !(save_machine_analysis_params.contains k))

/-- The body of `save_machine_analysis` (db.py lines 51-84): the insert is
wrapped in a bare `try/except` that logs, so the body itself never raises,
whatever the database does. -/
def save_machine_analysis (db_ok : Bool) (r : SavedRecord) :
    List SavedRecord × Except String Unit :=
  (if db_ok then [r] else [], .ok ())

/-- The persistence step as `process_image` performs it: binding the call's
keyword arguments against the db.py signature raises `TypeError` when an
argument is unexpected; only if binding succeeds does the (total) body run. -/
def save_step (db_ok : Bool) (r : SavedRecord) :
    List SavedRecord × Except String Unit :=
  match save_call_unexpected with
  | some k =>
    ([], .error ("save_machine_analysis() got an unexpected keyword argument " ++ k))
  | none => save_machine_analysis db_ok r

/-! ### Dispatcher parsing (image_processing.py lines 67-86) -/

/-- Fence stripping used by the dispatcher and error-code stages:
`.replace("```json", "").replace("```", "").replace("\n", "")`. -/
def strip_fences_nl (t : String) : String :=
  py_replace (py_replace (py_replace t "```json" "") "```" "") "\n" ""

/-- `str(AttributeError)` raised by `.get` on a non-dict value. -/
def attr_get_msg (v : JVal) : String :=
  py_type_name v ++ " object has no attribute get"

/-- `str(AttributeError)` raised by `.split` on a non-string value. -/
def attr_split_msg (v : JVal) : String :=
  py_type_name v ++ " object has no attribute split"

/-- Lines 67-86: strip fences, `json.loads`, then
`response_data.get("category")`. Only `json.JSONDecodeError` is caught
(default `working_machine`); parsed non-dict values raise `AttributeError`
at `.get`, which escapes to the pipeline boundary. -/
def dispatch_category (t : String) : Except String JVal :=
  match json_loads (strip_fences_nl t) with
  | .error _ => .ok (.str "working_machine")
  | .ok (.obj fs) => .ok (dictGetD fs "category" .null)
  | .ok v => .error (attr_get_msg v)

/-! ### Authenticity gate (image_processing.py lines 90-150) -/

/-- Fence stripping of the authenticity stage (lines 109-114), which also
calls `.strip()`. -/
def strip_fences_auth (t : String) : String :=
  py_strip (strip_fences_nl t)

/-- Lines 117-126: coerce the `is_real_photo` value; a kind not covered by
the `isinstance` chain leaves the prior value (`dflt`) in place. -/
def parse_bool_like (v : JVal) (dflt : Bool) : Bool :=
  match v with
  | .bool b => b
  | .str s =>
    let n := py_lower (py_strip s)
    n == "true" || n == "yes" || n == "1"
  | .int n => decide (n ≠ 0)
  | .float q => decide (q ≠ 0)
  | _ => dflt

/-- The object case of the authenticity parse:
`authenticity_data.get("is_real_photo", True)` then the coercion chain; the
prior value of `is_real_photo` is `True`. -/
def auth_from_obj (fs : List (String × JVal)) : Bool :=
  parse_bool_like (dictGetD fs "is_real_photo" (.bool true)) true

/-- Lines 90-144: `is_real_photo` starts `True`; a failed call lands in the
broad `except` (sets `True`), a `JSONDecodeError` leaves `True`, a parsed
non-dict raises `AttributeError` inside the same `try`, also caught by the
broad `except` (sets `True`). -/
def authenticity_is_real (r : Except String String) : Bool :=
  match r with
  | .error _ => true
  | .ok t =>
    match json_loads (strip_fences_auth t) with
    | .error _ => true
    | .ok (.obj fs) => auth_from_obj fs
    | .ok _ => true

/-- Lines 90 and 146-150: the gate runs only for `working_machine` and
overrides the category to `"other"` when the photo is judged not real. -/
def apply_authenticity (cat : JVal) (r : Except String String) : JVal :=
  if jEqStr cat "working_machine" then
    if authenticity_is_real r then cat else .str "other"
  else cat

/-! ### Error-code enrichment (image_processing.py lines 159-239) -/

/-- The exception kinds the enrichment `try` blocks catch
(`except (ValueError, IndexError)`). -/
inductive TryErr where
  | valueError
  | indexError
deriving Repr, DecidableEq

/-- The `try` body of lines 202-209: `cid, fmi = map(int, code.split("-"))`
(any arity or parse failure raises `ValueError`), then the two `.iloc[0]`
lookups (an empty selection raises `IndexError`). -/
def cidfmi_body (cidT fmiT : List (Int × String)) (s : String) :
    Except TryErr String :=
  match py_split_dash s with
  | [a, b] =>
    match py_int_of_string? a with
    | none => .error .valueError
    | some cid =>
      match py_int_of_string? b with
      | none => .error .valueError
      | some fmi =>
        match lookup_desc cidT cid with
        | none => .error .indexError
        | some cd =>
          match lookup_desc fmiT fmi with
          | none => .error .indexError
          | some fd => .ok (cd ++ " - " ++ fd)
  | _ => .error .valueError

/-- Result of Python `int(x)` on a decoded JSON value: `ValueError` is caught
by the surrounding `except` clause, `TypeError` is not. -/
inductive PyIntRes where
  | ok (n : Int)
  | valueError
  | typeError (msg : String)
deriving Repr

/-- Truncation toward zero, as Python `int(float)`. -/
def rat_trunc (q : Rat) : Int :=
  if q < 0 then Int.ceil q else Int.floor q

/-- Python `int(x)` over JSON-decoded values. -/
def py_int_of_jval : JVal → PyIntRes
  | .str s =>
    match py_int_of_string? s with
    | some n => .ok n
    | none => .valueError
  | .int n => .ok n
  | .bool b => .ok (if b then 1 else 0)
  | .float q => .ok (rat_trunc q)
  | .null => .typeError "int() argument must be a string or a number, not NoneType"
  | .arr _ => .typeError "int() argument must be a string or a number, not list"
  | .obj _ => .typeError "int() argument must be a string or a number, not dict"

def not_found_sentinel : String := "Description not found"

/-- The `try/except (ValueError, IndexError)` of lines 201-211: the caught
exceptions produce the sentinel name. -/
def cidfmi_resolved (cidT fmiT : List (Int × String)) (s : String) : String :=
  match cidfmi_body cidT fmiT s with
  | .ok nm => nm
  | .error _ => not_found_sentinel

/-- The `try` body plus `except` of lines 213-220: `int(code)` (a
`TypeError` is not among the caught exceptions and escapes), lookup with
`IndexError` → sentinel. -/
def eid_resolved (eidT : List (Int × String)) (code : JVal) :
    Except String String :=
  match py_int_of_jval code with
  | .typeError m => .error m
  | .valueError => .ok not_found_sentinel
  | .ok eid => .ok ((lookup_desc eidT eid).getD not_found_sentinel)

/-- Enrichment of one entry of `error_list` (lines 198-220). Escaping errors
(`.error`) are the `AttributeError`/`TypeError` cases that no local `except`
clause names; they abort `process_image` to the failure payload. -/
def enrich_entry (cidT fmiT eidT : List (Int × String)) (e : JVal) :
    Except String JVal :=
  match e with
  | .obj fs =>
    let code := dictGetD fs "code" (.str "")
    let ety := dictGetD fs "type" .null
    if jEqStr ety "CID-FMI" then
      match code with
      | .str s => .ok (.obj (dictSet fs "name" (.str (cidfmi_resolved cidT fmiT s))))
      | other => .error (attr_split_msg other)
    else if jEqStr ety "EID" then
      match eid_resolved eidT code with
      | .error m => .error m
      | .ok nm => .ok (.obj (dictSet fs "name" (.str nm)))
    else .ok (.obj fs)
  | other => .error (attr_get_msg other)

/-- Python `for error in error_list` over an arbitrary decoded value:
a list iterates its items; a string its characters; a dict its keys;
anything else raises `TypeError: not iterable`. -/
def entry_list : JVal → Except String (List JVal)
  | .arr xs => .ok xs
  | .str s => .ok (s.toList.map (fun c => .str (String.mk [c])))
  | .obj fs => .ok (fs.map (fun p => .str p.1))
  | v => .error (py_type_name v ++ " object is not iterable")

def enrich_go (tb : Tables) : List JVal → Except String Unit
  | [] => .ok ()
  | e :: rest =>
    match enrich_entry tb.cid tb.fmi tb.eid e with
    | .error m => .error m
    | .ok _ => enrich_go tb rest

/-- The enrichment loop over the decoded `errors` value. -/
def enrich_all (tb : Tables) (errors : JVal) : Except String Unit :=
  match entry_list errors with
  | .error m => .error m
  | .ok es => enrich_go tb es

/-- Lines 176-196: parse the error-extraction response. `JSONDecodeError`
falls back to an empty list; `.get` on a parsed non-dict raises
`AttributeError`. -/
def extract_errors (t : String) : Except String JVal :=
  match json_loads (strip_fences_nl t) with
  | .error _ => .ok (.arr [])
  | .ok (.obj fs) => .ok (dictGetD fs "errors" (.arr []))
  | .ok v => .error (attr_get_msg v)

/-- The `error_code` branch (lines 159-239): extraction call, parse,
enrichment, then the humanize call whose text becomes the final answer.
Returns the gateway invocations of the branch and the answer or the
escaping exception. -/
def error_code_branch (tb : Tables) (chat : Stage → Except String String) :
    List Stage × Except String String :=
  match call_openai_api chat .errorCodes with
  | .error m => ([.errorCodes], .error m)
  | .ok t =>
    match extract_errors t with
    | .error m => ([.errorCodes], .error m)
    | .ok errors =>
      match enrich_all tb errors with
      | .error m => ([.errorCodes], .error m)
      | .ok _ =>
        match call_openai_api chat .humanize with
        | .error m => ([.errorCodes, .humanize], .error m)
        | .ok ans => ([.errorCodes, .humanize], .ok ans)

/-! ### Part classification (image_processing.py lines 258-371) -/

/-- Fence stripping of the part-classifier stage (lines 301-303): no newline
replacement, then `.strip()`. -/
def strip_fences_part (t : String) : String :=
  py_strip (py_replace (py_replace t "```json" "") "```" "")

/-- Lines 327-347: keep string items, strip them, drop empties, drop items
outside the allow-list, deduplicate within the attempt (first seen wins). -/
def validate_items (items : List JVal) : List String :=
  items.foldl
    (fun acc it =>
      match it with
      | .str s =>
        let n := py_strip s
        if n.isEmpty then acc
        else if !(VALID_PART_CATEGORIES.contains n) then acc
        else if acc.contains n then acc
        else acc ++ [n]
      | _ => acc)
    []

/-- Lines 349-351: merge one attempt's validated categories into the
aggregate, first-seen order, no duplicates. -/
def union_append (acc cats : List String) : List String :=
  cats.foldl (fun a n => if a.contains n then a else a ++ [n]) acc

/-- One attempt of the part-classifier loop given the outcome of its
`call_openai_api` call. `.ok cats` is the attempt's contribution (possibly
empty after a caught failure); `.error` is the `AttributeError` of
`part_data.get` on a parsed non-dict (line 316), which no per-attempt
handler catches — it aborts the whole block via the outer `except` of
line 365. -/
def attempt_step (r : Except String String) : Except String (List String) :=
  match r with
  | .error _ => .ok []
  | .ok t =>
    match json_loads (strip_fences_part t) with
    | .error _ => .ok []
    | .ok (.obj fs) =>
      let raw := dictGetD fs "part_categories" (.arr [])
      let raw2 := match raw with | .str s => JVal.arr [.str s] | x => x
      match raw2 with
      | .arr items => .ok (validate_items items)
      | _ => .ok []
    | .ok v => .error (attr_get_msg v)

def part_attempts_go : List (Except String String) → List String → List String
  | [], acc => acc
  | r :: rest, acc =>
    match attempt_step r with
    | .error _ => []
    | .ok cats => part_attempts_go rest (union_append acc cats)

/-- The aggregation of lines 259-371 over the per-attempt call outcomes: the
attempts run in order; an escaping `AttributeError` lands in the outer
`except`, which discards everything (`part_categories = []`). -/
def part_attempts_result (rs : List (Except String String)) : List String :=
  part_attempts_go rs []

/-- The outcome each attempt's call produces in `process_image`: the call
site passes `temperature=0.19920523` (lines 287-291), a keyword
`call_openai_api` does not accept, so the call raises `TypeError` before
the gateway body runs; were the keyword accepted, the attempt would consult
the gateway. -/
def temperature_typeerror : String :=
  "call_openai_api() got an unexpected keyword argument temperature"

def attempt_outcome (chat : Stage → Except String String) : Except String String :=
  if part_call_raises then
    .error temperature_typeerror
  else
    call_openai_api chat .partClassifier

/-- The per-attempt call outcomes of the in-pipeline loop
(`range(1, PART_CLASSIFIER_ATTEMPTS + 1)`). -/
def part_outcomes (chat : Stage → Except String String) :
    List (Except String String) :=
  (List.range PART_CLASSIFIER_ATTEMPTS).map (fun _ => attempt_outcome chat)

/-- Gateway invocations the part step performs: none, because every call
raises `TypeError` at argument binding. -/
def part_stage_calls : List Stage :=
  if part_call_raises then []
  else List.replicate PART_CLASSIFIER_ATTEMPTS .partClassifier

/-! ### The pipeline (`process_image`, image_processing.py lines 28-412) -/

/-- The fixed localized rejection text (lines 153-157). -/
def rejection_message : String :=
  "Yüklenen görsel bir iş makinesi veya hata kodu olarak tanımlanamadı ya da " ++
  "gerçek bir fotoğraf içermiyor (ör. dijital render, çizim). Lütfen gerçek bir " ++
  "makine ya da hata ekranı fotoğrafı içeren alakalı bir görsel yükleyin."

/-- The `try` body of lines 42-395 up to (and excluding) the persistence
step: yields the gateway invocations in order and either the escaping
exception text or `(category, final_answer, part_categories)`. -/
def pipeline_body (tb : Tables) (o : Oracles) :
    List Stage × Except String (JVal × String × List String) :=
  if o.fetch_status != 200 then
    ([], .error "Image download failed")
  else
    match call_openai_api o.chat .dispatcher with
    | .error m => ([.dispatcher], .error m)
    | .ok t0 =>
      match dispatch_category t0 with
      | .error m => ([.dispatcher], .error m)
      | .ok cat0 =>
        let gateCalls : List Stage :=
          if jEqStr cat0 "working_machine" then [.authenticity] else []
        let cat1 := apply_authenticity cat0 (call_openai_api o.chat .authenticity)
        let baseCalls := Stage.dispatcher :: gateCalls
        let branch : List Stage × Except String String :=
          if jEqStr cat1 "other" then
            ([], .ok rejection_message)
          else if jEqStr cat1 "error_code" then
            error_code_branch tb o.chat
          else
            match call_openai_api o.chat .general with
            | .error m => ([.general], .error m)
            | .ok t => ([.general], .ok t)
        match branch with
        | (bc, .error m) => (baseCalls ++ bc, .error m)
        | (bc, .ok ans) =>
          if jEqStr cat1 "working_machine" || jEqStr cat1 "error_code" then
            (baseCalls ++ bc ++ part_stage_calls,
             .ok (cat1, ans, part_attempts_result (part_outcomes o.chat)))
          else
            (baseCalls ++ bc, .ok (cat1, ans, []))

/-- The failure payload (lines 401-410). -/
def failure_payload (sid : String) (req : ImageRequest) (msg : String) :
    CallbackPayload :=
  ⟨sid, req.image_id, req.serial_number, req.form_id, req.question_id,
   msg, "failed", []⟩

/-- The success payload (lines 386-395). -/
def done_payload (sid : String) (req : ImageRequest) (ans : String)
    (parts : List String) : CallbackPayload :=
  ⟨sid, req.image_id, req.serial_number, req.form_id, req.question_id,
   ans, "done", parts⟩

/-- The observable outcome of one `process_image` run. -/
structure RunResult where
  calls : List Stage
  saved : List SavedRecord
  callbacks : List CallbackAttempt

/-- `process_image` (lines 28-412): run the pipeline body, then the
persistence step; any exception caught at the boundary yields the failure
payload; finally exactly one `send_callback`. -/
def process_image (sid : String) (req : ImageRequest) (tb : Tables)
    (o : Oracles) : RunResult :=
  let pb := pipeline_body tb o
  match pb.2 with
  | .error m =>
    { calls := pb.1, saved := [],
      callbacks := [send_callback req.webhook_url (failure_payload sid req m) o.webhook_status] }
  | .ok (cat, ans, parts) =>
    let sv := save_step o.db_ok
      ⟨sid, req.serial_number, req.image_id, req.form_id, req.question_id,
       cat, String.intercalate ", " parts, ans⟩
    match sv.2 with
    | .error m =>
      { calls := pb.1, saved := sv.1,
        callbacks := [send_callback req.webhook_url (failure_payload sid req m) o.webhook_status] }
    | .ok _ =>
      { calls := pb.1, saved := sv.1,
        callbacks := [send_callback req.webhook_url (done_payload sid req ans parts) o.webhook_status] }

/-! ### Auxiliary predicates and claim-side descriptions -/

def jIsObj : JVal → Bool
  | .obj _ => true
  | _ => false

/-- Attempt outcomes that do not abort the part-classification block. -/
def attempt_ok (r : Except String String) : Bool :=
  !(exIsErr (attempt_step r))

/-- The categories one attempt contributes according to the claim's wording:
a failed call or unparseable response contributes nothing, a string field is
coerced to a one-element list, a non-list shape or a non-object response is
merely dropped. -/
def spec_attempt_categories (r : Except String String) : List String :=
  match r with
  | .error _ => []
  | .ok t =>
    match json_loads (strip_fences_part t) with
    | .error _ => []
    | .ok (.obj fs) =>
      match dictGetD fs "part_categories" (.arr []) with
      | .str s => validate_items [.str s]
      | .arr items => validate_items items
      | _ => []
    | .ok _ => []

/-- The claim's final list: the union, first-seen order without duplicates,
of every attempt's valid categories. -/
def spec_part_union (rs : List (Except String String)) : List String :=
  rs.foldl (fun a r => union_append a (spec_attempt_categories r)) []

/-- The name the claim assigns to a CID-FMI code: when the code is two
integers joined by "-" and both are present in the reference tables, the
joined descriptions; anything else the fixed sentinel. -/
def cidfmi_name (cidT fmiT : List (Int × String)) (s : String) : String :=
  match py_split_dash s with
  | [a, b] =>
    match py_int_of_string? a, py_int_of_string? b with
    | some cid, some fmi =>
      match lookup_desc cidT cid, lookup_desc fmiT fmi with
      | some cd, some fd => cd ++ " - " ++ fd
      | _, _ => not_found_sentinel
    | _, _ => not_found_sentinel
  | _ => not_found_sentinel

/-- The name the claim assigns to an EID code given as a string: the table
description when the integer is present, the sentinel otherwise. -/
def eid_name (eidT : List (Int × String)) (s : String) : String :=
  match py_int_of_string? s with
  | some eid => (lookup_desc eidT eid).getD not_found_sentinel
  | none => not_found_sentinel

/-! ### Concrete fixtures -/

def req_fix : ImageRequest :=
  ⟨"http://host/img.png", "img1", "sn1", none, none, "http://cb/hook", "tr"⟩

def tb_fix : Tables := ⟨[(100, "Pump")], [(2, "Erratic")], [(10, "Overheat")]⟩

def chat_other_fix : Stage → Except String String
  | .dispatcher => .ok "\x7b\"category\": \"other\"\x7d"
  | _ => .ok ""

def chat_unknown_fix : Stage → Except String String
  | .dispatcher => .ok "\x7b\"category\": \"foo\"\x7d"
  | .general => .ok "general analysis answer"
  | _ => .ok ""

def chat_wm_fix : Stage → Except String String
  | .dispatcher => .ok "\x7b\"category\": \"working_machine\"\x7d"
  | .authenticity => .ok "\x7b\"is_real_photo\": true\x7d"
  | .general => .ok "general analysis answer"
  | _ => .ok ""

def chat_null_fix : Stage → Except String String
  | .dispatcher => .ok "null"
  | _ => .ok ""

def chat_ec_badcode : Stage → Except String String
  | .dispatcher => .ok "\x7b\"category\": \"error_code\"\x7d"
  | .errorCodes =>
    .ok "\x7b\"errors\": [\x7b\"type\": \"CID-FMI\", \"code\": 123\x7d], \"additional_info\": \"\"\x7d"
  | .humanize => .ok "humanized answer"
  | _ => .ok ""

def oracles_of (c : Stage → Except String String) : Oracles := ⟨200, c, true, 200⟩

/-! ## Claims -/

/-- C1: every accepted submission leads to exactly one `send_callback`
invocation per `process_image` run, on every control path — success or any
caught exception — with a payload whose `status` is `"done"` or `"failed"`;
`send_callback` is total by construction (both the non-200 branch and a
transport exception are swallowed), so no exception escapes the pipeline
boundary. -/
theorem claim_C1_exactly_one_callback (sid : String) (req : ImageRequest)
    (tb : Tables) (o : Oracles) :
    (process_image sid req tb o).callbacks.length = 1 ∧
    ((process_image sid req tb o).callbacks.all
      (fun a => a.payload.status == "done" || a.payload.status == "failed")) = true := by
  unfold process_image
  rcases hpb : (pipeline_body tb o).2 with m | ⟨cat, ans, parts⟩
  · simp [hpb, send_callback, failure_payload]
  · rcases hsv : (save_step o.db_ok
        ⟨sid, req.serial_number, req.image_id, req.form_id, req.question_id,
         cat, String.intercalate ", " parts, ans⟩).2 with m2 | u
    · simp [hpb, hsv, send_callback, failure_payload]
    · simp [hpb, hsv, send_callback, done_payload]

/-- C7: a non-200 image fetch terminates the session with status
`"failed"`, the callback answer `"Image download failed"`, empty
`part_categories`, and no later pipeline stage runs: no gateway call and no
persisted record. -/
theorem claim_C7_download_failure (sid : String) (req : ImageRequest)
    (tb : Tables) (o : Oracles) (h : (o.fetch_status != 200) = true) :
    (process_image sid req tb o).calls = [] ∧
    (process_image sid req tb o).saved = [] ∧
    (process_image sid req tb o).callbacks.map
      (fun a => (a.payload.status, a.payload.answer, a.payload.part_categories))
      = [("failed", "Image download failed", ([] : List String))] := by
  unfold process_image pipeline_body
  simp [h, send_callback, failure_payload]

/-- Witness for C7 at a concrete 404 fetch. -/
theorem claim_C7_witness :
    (process_image "sid" req_fix tb_fix ⟨404, chat_wm_fix, true, 200⟩).callbacks.map
      (fun a => (a.payload.status, a.payload.answer, a.payload.part_categories))
      = [("failed", "Image download failed", ([] : List String))] :=
  (claim_C7_download_failure "sid" req_fix tb_fix ⟨404, chat_wm_fix, true, 200⟩ rfl).2.2

/-- C2 (code bug): the claim — and spec section 4.1 — say the gateway
contract accepts a `temperature` parameter and that each of the three
part-classification attempts invokes the gateway at the fixed override
0.19920523. In the code, `call_openai_api` (openai_client.py line 13) has
no `temperature` parameter while the call site passes one, so every attempt
raises `TypeError` at argument binding, the caught error skips the attempt
(line 292), the gateway receives zero part-classification calls, and the
aggregate is always empty. Evaluated here on a working-machine session. -/
theorem claim_C2_temperature_typeerror :
    call_openai_api_params.contains "temperature" = false ∧
    part_call_raises = true ∧
    part_outcomes chat_wm_fix =
      [.error temperature_typeerror, .error temperature_typeerror,
       .error temperature_typeerror] ∧
    part_attempts_result (part_outcomes chat_wm_fix) = [] ∧
    (process_image "sid" req_fix tb_fix (oracles_of chat_wm_fix)).calls.count
      Stage.partClassifier = 0 :=
  ⟨rfl, rfl, rfl, rfl, rfl⟩

/-- C3 is false as stated: the dispatcher response `"null"` is malformed
(not the documented category object), yet the category does not default to
`working_machine` — `json.loads` succeeds, `.get` raises `AttributeError`
(only `json.JSONDecodeError` is caught), and the session fails after the
dispatcher call with no analysis stage running. -/
theorem claim_C3_counterexample :
    dispatch_category "null" = .error "NoneType object has no attribute get" ∧
    (process_image "sid" req_fix tb_fix (oracles_of chat_null_fix)).calls
      = [Stage.dispatcher] ∧
    (process_image "sid" req_fix tb_fix (oracles_of chat_null_fix)).callbacks.map
      (fun a => (a.payload.status, a.payload.answer))
      = [("failed", "NoneType object has no attribute get")] :=
  ⟨rfl, rfl, rfl⟩

/-- C3 (amended): a dispatcher response whose fence-stripped content raises
`json.JSONDecodeError` resolves the category to `working_machine` with no
exception; but a response that parses to a non-object JSON value raises
`AttributeError` at the category lookup and aborts to the session failure
path instead of defaulting. -/
theorem claim_C3_amended :
    (∀ t, exIsErr (json_loads (strip_fences_nl t)) = true →
      dispatch_category t = .ok (JVal.str "working_machine")) ∧
    (∀ t v, json_loads (strip_fences_nl t) = .ok v → jIsObj v = false →
      dispatch_category t = .error (attr_get_msg v)) := by
  constructor
  · intro t h
    unfold dispatch_category
    rcases hj : json_loads (strip_fences_nl t) with e | v
    · rfl
    · rw [hj] at h
      simp [exIsErr] at h
  · intro t v hj hobj
    unfold dispatch_category
    rw [hj]
    cases v <;> simp_all [jIsObj]

/-- Witness for C3 (amended): an unparseable response defaults the category,
a parseable non-object response raises. -/
theorem claim_C3_witness :
    dispatch_category "nope" = .ok (JVal.str "working_machine") ∧
    dispatch_category "[1, 2]" = .error (attr_get_msg (.arr [.int 1, .int 2])) :=
  ⟨claim_C3_amended.1 "nope" rfl,
   claim_C3_amended.2 "[1, 2]" (.arr [.int 1, .int 2]) rfl rfl⟩

/-- C8 (code bug): for a category-`other` session the code does set the
fixed rejection text and makes no further model call after dispatch, but
the claimed callback never happens: the persistence call raises `TypeError`
(unexpected keyword `webhook_url`), so the delivered payload has status
`"failed"` with the `TypeError` text instead of the rejection message.
`part_categories` is empty and nothing is persisted. -/
theorem claim_C8_other_category_bug :
    (process_image "sid" req_fix tb_fix (oracles_of chat_other_fix)).calls
      = [Stage.dispatcher] ∧
    (process_image "sid" req_fix tb_fix (oracles_of chat_other_fix)).saved = [] ∧
    (process_image "sid" req_fix tb_fix (oracles_of chat_other_fix)).callbacks.map
      (fun a => (a.payload.status, a.payload.answer, a.payload.part_categories))
      = [("failed",
          "save_machine_analysis() got an unexpected keyword argument webhook_url",
          ([] : List String))] :=
  ⟨rfl, rfl, rfl⟩

/-- C9 (code bug): the body of `save_machine_analysis` (db.py) does catch
every failure, but the call in `process_image` passes keyword arguments
`webhook_url`/`image_url` that the signature rejects, so the call raises
`TypeError` before the body runs: for every persistence outcome the session
ends `"failed"` and nothing is persisted — the callback is never the one of
a successful run, contradicting the claimed independence. -/
theorem claim_C9_persistence_bug :
    (∀ (db : Bool) (r : SavedRecord), (save_machine_analysis db r).2 = .ok ()) ∧
    save_call_unexpected = some "webhook_url" ∧
    (∀ db : Bool,
      (process_image "sid" req_fix tb_fix ⟨200, chat_other_fix, db, 200⟩).callbacks.map
        (fun a => a.payload.status) = ["failed"] ∧
      (process_image "sid" req_fix tb_fix ⟨200, chat_other_fix, db, 200⟩).saved = []) := by
  refine ⟨fun db r => rfl, rfl, fun db => ?_⟩
  cases db <;> exact ⟨rfl, rfl⟩

/-- C10 (code bug): a dispatcher object whose `category` is outside the
enumeration does skip the authenticity gate, runs the general-analysis
branch, and skips part classification — but nothing is persisted: the
persistence call raises `TypeError`, so the record with the raw category
value never reaches the store and the session ends `"failed"`. -/
theorem claim_C10_unknown_category_bug :
    (process_image "sid" req_fix tb_fix (oracles_of chat_unknown_fix)).calls
      = [Stage.dispatcher, Stage.general] ∧
    (process_image "sid" req_fix tb_fix (oracles_of chat_unknown_fix)).saved = [] ∧
    (process_image "sid" req_fix tb_fix (oracles_of chat_unknown_fix)).callbacks.map
      (fun a => (a.payload.status, a.payload.part_categories))
      = [("failed", ([] : List String))] :=
  ⟨rfl, rfl, rfl⟩

/-- C4: the authenticity gate is fail-open and coerces as claimed:
(1) a failed model call resolves `is_real_photo` to `true`;
(2) an unparseable response resolves to `true`;
(3) an absent `is_real_photo` field resolves to `true`;
(4) a native boolean is taken as-is;
(5) a string counts as true iff its trimmed lowercase form is `"true"`,
`"yes"` or `"1"`;
(6, 7) numeric values coerce through `bool` (non-zero is true);
(8) whenever the check resolves to `false`, the `working_machine` category
is overridden to `"other"`. -/
theorem claim_C4_authenticity_fail_open :
    (∀ m, authenticity_is_real (.error m) = true) ∧
    (∀ t, exIsErr (json_loads (strip_fences_auth t)) = true →
      authenticity_is_real (.ok t) = true) ∧
    (∀ fs, dictGet fs "is_real_photo" = none → auth_from_obj fs = true) ∧
    (∀ b, parse_bool_like (.bool b) true = b) ∧
    (∀ s, parse_bool_like (.str s) true = true ↔
      (py_lower (py_strip s) = "true" ∨ py_lower (py_strip s) = "yes" ∨
       py_lower (py_strip s) = "1")) ∧
    (∀ n : Int, parse_bool_like (.int n) true = true ↔ n ≠ 0) ∧
    (∀ q : Rat, parse_bool_like (.float q) true = true ↔ q ≠ 0) ∧
    (∀ r, authenticity_is_real r = false →
      apply_authenticity (.str "working_machine") r = .str "other") := by
  refine ⟨fun m => rfl, ?_, ?_, fun b => rfl, ?_, ?_, ?_, ?_⟩
  · intro t h
    unfold authenticity_is_real
    rcases hj : json_loads (strip_fences_auth t) with e | v
    · simp [hj]
    · rw [hj] at h
      simp [exIsErr] at h
  · intro fs h
    unfold auth_from_obj dictGetD
    rw [h]
    rfl
  · intro s
    simp [parse_bool_like, Bool.or_eq_true, beq_iff_eq, or_assoc]
  · intro n
    simp [parse_bool_like]
  · intro q
    simp [parse_bool_like]
  · intro r h
    unfold apply_authenticity
    simp [jEqStr, h]

/-- Witness for C4: an unparseable authenticity response keeps the photo
real; a response judging the photo not real flips the category to
`"other"`. -/
theorem claim_C4_witness :
    authenticity_is_real (.ok "oops") = true ∧
    apply_authenticity (JVal.str "working_machine")
      (.ok "\x7b\"is_real_photo\": false\x7d") = JVal.str "other" :=
  ⟨claim_C4_authenticity_fail_open.2.1 "oops" rfl,
   claim_C4_authenticity_fail_open.2.2.2.2.2.2.2 _ rfl⟩

/-- A non-aborting attempt contributes exactly its claim-side categories. -/
theorem attempt_step_ok_spec (r : Except String String) (cats : List String)
    (h : attempt_step r = .ok cats) : spec_attempt_categories r = cats := by
  rcases r with m | t
  · simp [attempt_step] at h
    simp [spec_attempt_categories, ← h]
  · rcases hj : json_loads (strip_fences_part t) with e | v
    · simp only [attempt_step, hj, Except.ok.injEq] at h
      simp [spec_attempt_categories, hj, ← h]
    · cases v with
      | obj fs =>
        rcases hr : dictGetD fs "part_categories" (.arr []) with _ | b | n | q | s | items | gs <;>
          simp only [attempt_step, hj, hr, Except.ok.injEq] at h <;>
          simp [spec_attempt_categories, hj, hr, ← h]
      | null => simp [attempt_step, hj] at h
      | bool b => simp [attempt_step, hj] at h
      | int n => simp [attempt_step, hj] at h
      | float q => simp [attempt_step, hj] at h
      | str s => simp [attempt_step, hj] at h
      | arr xs => simp [attempt_step, hj] at h

/-- The part loop equals the claimed fold as long as no attempt aborts. -/
theorem part_go_spec (rs : List (Except String String)) (acc : List String)
    (h : rs.all attempt_ok = true) :
    part_attempts_go rs acc =
      rs.foldl (fun a r => union_append a (spec_attempt_categories r)) acc := by
  induction rs generalizing acc with
  | nil => rfl
  | cons r rest ih =>
    rw [List.all_cons, Bool.and_eq_true] at h
    obtain ⟨h1, h2⟩ := h
    unfold part_attempts_go
    rcases hs : attempt_step r with m | cats
    · unfold attempt_ok at h1
      rw [hs] at h1
      simp [exIsErr] at h1
    · show part_attempts_go rest (union_append acc cats) =
        List.foldl (fun a r => union_append a (spec_attempt_categories r)) acc (r :: rest)
      rw [List.foldl_cons, attempt_step_ok_spec r cats hs]
      exact ih _ h2

/-- C5 is false as stated: an attempt whose fence-stripped response parses
to a JSON value that is not an object (here the array `[]` of the second
attempt) raises `AttributeError` at `part_data.get`, which the per-attempt
handlers do not catch; the outer `except` of line 365 then discards every
attempt's contribution, so the final list is `[]` although the attempts'
valid categories union to `["LASTIK", "SASE PARCALARI"]`. -/
def c5_abort_outcomes : List (Except String String) :=
  [.ok "\x7b\"part_categories\": [\"LASTIK\"]\x7d",
   .ok "[]",
   .ok "\x7b\"part_categories\": [\"LASTIK\", \"SASE PARCALARI\"]\x7d"]

/-- C5 counterexample: the code yields `[]` where the claimed union is
`["LASTIK", "SASE PARCALARI"]`. -/
theorem claim_C5_counterexample :
    part_attempts_result c5_abort_outcomes = [] ∧
    spec_part_union c5_abort_outcomes = ["LASTIK", "SASE PARCALARI"] :=
  ⟨rfl, rfl⟩

/-- C5 (amended): provided every attempt's response either fails (call or
JSON parse) or parses to a JSON object, the final part-category list equals
the union, in first-seen order without duplicates, of the allow-list-valid
categories of the attempts — string fields coerced to one-element lists,
non-list field shapes and invalid or non-string entries dropped, failed or
empty attempts skipped without blocking the others. An attempt parsing to a
non-object JSON value instead aborts the whole block to `[]`. -/
theorem claim_C5_union (rs : List (Except String String))
    (h : rs.all attempt_ok = true) :
    part_attempts_result rs = spec_part_union rs :=
  part_go_spec rs [] h

def c5_scenario_outcomes : List (Except String String) :=
  [.ok "\x7b\"part_categories\": [\"LASTIK\"]\x7d",
   .error "network error",
   .ok "\x7b\"part_categories\": [\"LASTIK\", \"SASE PARCALARI\"]\x7d"]

/-- Witness for C5 on the claim's own scenario: attempt 1 yields
`["LASTIK"]`, attempt 2 fails, attempt 3 yields
`["LASTIK", "SASE PARCALARI"]`; the final list is
`["LASTIK", "SASE PARCALARI"]`. -/
theorem claim_C5_witness :
    c5_scenario_outcomes.all attempt_ok = true ∧
    part_attempts_result c5_scenario_outcomes = ["LASTIK", "SASE PARCALARI"] := by
  refine ⟨rfl, ?_⟩
  rw [claim_C5_union c5_scenario_outcomes rfl]
  rfl

/-- The caught `try/except` result for a string CID-FMI code equals the
claim-side total description. -/
theorem cidfmi_resolved_eq (cidT fmiT : List (Int × String)) (s : String) :
    cidfmi_resolved cidT fmiT s = cidfmi_name cidT fmiT s := by
  rcases hsp : py_split_dash s with _ | ⟨a, rest⟩
  · simp [cidfmi_resolved, cidfmi_body, cidfmi_name, hsp]
  · rcases rest with _ | ⟨b, rest2⟩
    · simp [cidfmi_resolved, cidfmi_body, cidfmi_name, hsp]
    · rcases rest2 with _ | ⟨c, rest3⟩
      · rcases hia : py_int_of_string? a with _ | cid
        · simp [cidfmi_resolved, cidfmi_body, cidfmi_name, hsp, hia]
        · rcases hib : py_int_of_string? b with _ | fmi
          · simp [cidfmi_resolved, cidfmi_body, cidfmi_name, hsp, hia, hib]
          · rcases hc : lookup_desc cidT cid with _ | cd
            · simp [cidfmi_resolved, cidfmi_body, cidfmi_name, hsp, hia, hib, hc]
            · rcases hf : lookup_desc fmiT fmi with _ | fd <;>
                simp [cidfmi_resolved, cidfmi_body, cidfmi_name, hsp, hia, hib, hc, hf]
      · simp [cidfmi_resolved, cidfmi_body, cidfmi_name, hsp]

/-- The EID branch never escapes on a string code and resolves to the
claim-side name. -/
theorem eid_resolved_str (eidT : List (Int × String)) (s : String) :
    eid_resolved eidT (.str s) = .ok (eid_name eidT s) := by
  rcases hi : py_int_of_string? s with _ | eid
  · simp [eid_resolved, py_int_of_jval, eid_name, hi]
  · simp [eid_resolved, py_int_of_jval, eid_name, hi]

/-- C6 is false as stated: an entry of type CID-FMI whose `code` is a JSON
number — malformed in the claim's sense, since it is not two integers
joined by `"-"` — does not get the sentinel name: `code.split("-")` raises
`AttributeError`, which `except (ValueError, IndexError)` does not catch,
so the exception reaches the pipeline boundary and the session fails. -/
theorem claim_C6_counterexample :
    enrich_entry [] [] []
      (.obj [("type", JVal.str "CID-FMI"), ("code", JVal.int 123)])
      = .error "int object has no attribute split" ∧
    (process_image "sid" req_fix tb_fix (oracles_of chat_ec_badcode)).callbacks.map
      (fun a => (a.payload.status, a.payload.answer))
      = [("failed", "int object has no attribute split")] :=
  ⟨rfl, rfl⟩

/-- C6 (amended): for every error entry whose `code` is a string, enrichment
is total: a CID-FMI entry gets the joined `"<CID description> - <FMI
description>"` when the code is two integers both present in the tables and
the fixed sentinel `"Description not found"` otherwise, with no exception;
an EID entry likewise resolves to the table description or the sentinel.
(Non-string codes raise `AttributeError`/`TypeError`, caught only at the
pipeline boundary.) -/
theorem claim_C6_enrichment_total (cidT fmiT eidT : List (Int × String))
    (fs : List (String × JVal)) (s : String)
    (hcode : dictGetD fs "code" (.str "") = .str s) :
    (dictGetD fs "type" .null = .str "CID-FMI" →
      enrich_entry cidT fmiT eidT (.obj fs)
        = .ok (.obj (dictSet fs "name" (.str (cidfmi_name cidT fmiT s))))) ∧
    (dictGetD fs "type" .null = .str "EID" →
      enrich_entry cidT fmiT eidT (.obj fs)
        = .ok (.obj (dictSet fs "name" (.str (eid_name eidT s))))) := by
  constructor
  · intro hty
    simp only [enrich_entry, hcode, hty]
    simp [jEqStr, cidfmi_resolved_eq]
  · intro hty
    simp only [enrich_entry, hcode, hty]
    simp [jEqStr, eid_resolved_str]

/-- Witness for C6 (amended): the code `"100-2"` with both integers in the
tables resolves to the joined description, and an unknown string code gets
the sentinel. -/
theorem claim_C6_witness :
    enrich_entry [(100, "Pump")] [(2, "Erratic")] []
      (.obj [("type", JVal.str "CID-FMI"), ("code", JVal.str "100-2")])
      = .ok (.obj [("type", JVal.str "CID-FMI"), ("code", JVal.str "100-2"),
                   ("name", JVal.str "Pump - Erratic")]) ∧
    enrich_entry [(100, "Pump")] [(2, "Erratic")] []
      (.obj [("type", JVal.str "CID-FMI"), ("code", JVal.str "999-9")])
      = .ok (.obj [("type", JVal.str "CID-FMI"), ("code", JVal.str "999-9"),
                   ("name", JVal.str "Description not found")]) := by
  constructor
  · have h := (claim_C6_enrichment_total [(100, "Pump")] [(2, "Erratic")] []
      [("type", JVal.str "CID-FMI"), ("code", JVal.str "100-2")] "100-2" rfl).1 rfl
    rw [h]
    rfl
  · have h := (claim_C6_enrichment_total [(100, "Pump")] [(2, "Erratic")] []
      [("type", JVal.str "CID-FMI"), ("code", JVal.str "999-9")] "999-9" rfl).1 rfl
    rw [h]
    rfl

end BoomGuru
